import Mathlib

/-!
# Verification of the stroke-risk prediction pipeline

A shallow embedding of the prediction subsystem of the healthcare-records
application: the input validators (`app/utils/validators.py`), the prediction
service (`app/services/prediction_service.py`), the `/predict` route
(`app/routes/prediction.py`) and the feature order of the training script
(`scripts/train_model.py`).

Modelling conventions:
* Python floats are modelled as rationals (`ℚ`); the thresholds 0.33 / 0.66
  and all comparisons are exact.
* A Python dict is an association list `List (String × PyValue)`; lookup
  takes the first match and update rewrites matching entries in place.
* Exceptions are modelled with `Option` / `Except`: a step that can raise
  returns `Except String α`, the message standing for `str(e)`.
* The pre-trained classifier is opaque third-party code; it is modelled as an
  arbitrary total function `List ℚ → ℚ` carried in the loaded artifacts.
* `logging.warning` calls in the encoding loop are modelled as an explicit
  list of emitted messages, so that "logs the occurrence" is statable.
-/

namespace StrokeApp

/-- A Python value as it occurs in the prediction input dictionaries:
`None`, a string, an int, or a float (modelled as `ℚ`). -/
inductive PyValue where
  | none : PyValue
  | str (s : String) : PyValue
  | int (n : ℤ) : PyValue
  | float (q : ℚ) : PyValue
deriving DecidableEq, Repr

/-- A Python dict with string keys, as an insertion-ordered association list. -/
abbrev PyDict := List (String × PyValue)

/-- `k in d` / `d.get(k)`: first binding of key `k`. -/
def PyDict.get? (d : PyDict) (k : String) : Option PyValue :=
  (d.find? (fun p => p.1 == k)).map (fun p => p.2)

/-- `d[k] = v` on a key already present: rewrite the binding(s) in place;
on a fresh key: append (Python dicts preserve insertion order). -/
def PyDict.set (d : PyDict) (k : String) (v : PyValue) : PyDict :=
  if d.any (fun p => p.1 == k) then
    d.map (fun p => if p.1 == k then (k, v) else p)
  else
    d ++ [(k, v)]

/-! ## Python `float()` and `int()` on the embedded values

`float(s)` accepts an optionally signed decimal numeral with an optional
fractional part and an optional decimal exponent, surrounded by optional
whitespace.  (`inf` / `nan` / underscore separators are not representable in
`ℚ` and are not modelled; no claim depends on them.)  `float(None)` raises
`TypeError` and `float('x')` raises `ValueError`; both are modelled as
`Option.none`, matching the `except (ValueError, TypeError)` handlers in the
source. -/

/-- Strip leading and trailing whitespace from a character list (the
whitespace tolerance of Python `float()` / `int()` on strings). -/
def trimChars (cs : List Char) : List Char :=
  ((cs.dropWhile Char.isWhitespace).reverse.dropWhile Char.isWhitespace).reverse

/-- Value of a list of decimal digit characters. -/
def digitsVal (cs : List Char) : ℕ :=
  cs.foldl (fun a c => a * 10 + (c.toNat - 48)) 0

/-- All characters are decimal digits. -/
def allDigits (cs : List Char) : Bool :=
  cs.all (fun c => c.isDigit)

/-- An unsigned decimal mantissa (`123`, `123.`, `.5`, `12.5`), as a
numerator/denominator pair.  (`mkRat` is used downstream instead of `ℚ`
field operations so that concrete parses evaluate by `decide`; the value is
the same.) -/
def parseMantissaUnsigned (cs : List Char) : Option (ℕ × ℕ) :=
  match cs.splitOn '.' with
  | [w] =>
    if allDigits w && !w.isEmpty then some (digitsVal w, 1) else none
  | [w, f] =>
    if allDigits w && allDigits f && !(w.isEmpty && f.isEmpty) then
      some (digitsVal w * 10 ^ f.length + digitsVal f, 10 ^ f.length)
    else none
  | _ => none

/-- An optionally signed decimal mantissa, as a numerator/denominator pair. -/
def parseMantissa (cs : List Char) : Option (ℤ × ℕ) :=
  match cs with
  | '+' :: r => (parseMantissaUnsigned r).map (fun p => ((p.1 : ℤ), p.2))
  | '-' :: r => (parseMantissaUnsigned r).map (fun p => (-(p.1 : ℤ), p.2))
  | r => (parseMantissaUnsigned r).map (fun p => ((p.1 : ℤ), p.2))

/-- An optionally signed decimal integer (the exponent part, and `int(s)`). -/
def parseSignedInt (cs : List Char) : Option ℤ :=
  match cs with
  | '+' :: r => if allDigits r && !r.isEmpty then some (digitsVal r) else none
  | '-' :: r => if allDigits r && !r.isEmpty then some (-(digitsVal r : ℤ)) else none
  | r => if allDigits r && !r.isEmpty then some (digitsVal r) else none

/-- Python `float(s)` on a string. -/
def parseFloat (s : String) : Option ℚ :=
  let cs := (trimChars s.data).map (fun c => if c == 'E' then 'e' else c)
  match cs.splitOn 'e' with
  | [m] => (parseMantissa m).map (fun p => mkRat p.1 p.2)
  | [m, e] => do
    let mq ← parseMantissa m
    let ex ← parseSignedInt e
    pure (if 0 ≤ ex then mkRat (mq.1 * 10 ^ ex.toNat) mq.2
          else mkRat mq.1 (mq.2 * 10 ^ (-ex).toNat))
  | _ => none

/-- Python `float(v)`: identity on numbers, decimal parsing on strings,
`TypeError` (`none`) on `None`. -/
def pyFloat : PyValue → Option ℚ
  | PyValue.none => none
  | PyValue.str s => parseFloat s
  | PyValue.int n => some (n : ℚ)
  | PyValue.float q => some q

/-- Python `int(v)`: identity on ints, truncation toward zero on floats,
signed-digits parsing on strings, `TypeError` (`none`) on `None`. -/
def pyInt : PyValue → Option ℤ
  | PyValue.none => none
  | PyValue.str s => parseSignedInt (trimChars s.data)
  | PyValue.int n => some n
  | PyValue.float q => some (if 0 ≤ q then Rat.floor q else Rat.ceil q)

/-- Python `str(v)`.  For floats the exact `repr` is not reproduced; the
model only guarantees what the code inspects: the result of `str` on a float
always contains a `.` (or `/`) and hence is never the bare numeral `0` or
`1`, matching CPython (`str(0.0) = '0.0'`). -/
def pyStr : PyValue → String
  | PyValue.none => "None"
  | PyValue.str s => s
  | PyValue.int n => toString n
  | PyValue.float q =>
    if q.den == 1 then toString q.num ++ ".0" else toString q.num ++ "/" ++ toString q.den

/-! ## `validate_prediction_input` (validators.py lines 324–400) -/

/-- The ten required prediction features, in source order. -/
def pred_required_fields : List String :=
  ["gender", "age", "hypertension", "heart_disease", "ever_married",
   "work_type", "Residence_type", "avg_glucose_level", "bmi", "smoking_status"]

/-- The numeric prediction features, in source order. -/
def pred_numeric_fields : List String := ["age", "avg_glucose_level", "bmi"]

/-- `field not in data or data[field] is None or data[field] == ''`. -/
def missingOrEmpty (data : PyDict) (field : String) : Bool :=
  match data.get? field with
  | Option.none => true
  | some PyValue.none => true
  | some (PyValue.str s) => s == ""
  | some _ => false

/-- `validate_prediction_input`: presence/non-emptiness of the ten fields,
then float-parsability of the three numeric fields.  The source's numeric
error message interpolates `str(e)`; the model keeps the fixed stem. -/
def validate_prediction_input (data : PyDict) : Bool × Option String :=
  match pred_required_fields.find? (missingOrEmpty data) with
  | some f => (false, some ("Missing required field: " ++ f))
  | Option.none =>
    match pred_numeric_fields.find?
        (fun f => (pyFloat ((data.get? f).getD PyValue.none)).isNone) with
    | some _ => (false, some "Invalid numeric value")
    | Option.none => (true, Option.none)

/-! ## `validate_patient_data` (validators.py lines 216–317) -/

/-- The ten required patient-record fields (note: `stroke` instead of `bmi`),
in source order. -/
def patient_required_fields : List String :=
  ["gender", "age", "hypertension", "heart_disease", "ever_married",
   "work_type", "Residence_type", "avg_glucose_level", "smoking_status", "stroke"]

/-- `field not in patient_data or patient_data[field] is None`
(no empty-string test here, unlike the prediction validator). -/
def missingOrNone (data : PyDict) (field : String) : Bool :=
  match data.get? field with
  | Option.none => true
  | some PyValue.none => true
  | some _ => false

def valid_genders : List String := ["Male", "Female", "Other"]

def binary_fields : List String := ["hypertension", "heart_disease", "stroke"]

/-- `validate_patient_data`: presence, age ∈ [0,120], glucose ∈ [0,500],
gender vocabulary, then the 0/1 fields via `str`. -/
def validate_patient_data (data : PyDict) : Bool × Option String :=
  match patient_required_fields.find? (missingOrNone data) with
  | some f => (false, some ("Missing required field: " ++ f))
  | Option.none =>
    match pyFloat ((data.get? "age").getD PyValue.none) with
    | Option.none => (false, some "Invalid age value.")
    | some age =>
      if age < 0 ∨ age > 120 then (false, some "Age must be between 0 and 120.")
      else
        match pyFloat ((data.get? "avg_glucose_level").getD PyValue.none) with
        | Option.none => (false, some "Invalid glucose level value.")
        | some glucose =>
          if glucose < 0 ∨ glucose > 500 then
            (false, some "Glucose level must be between 0 and 500.")
          else if !(match data.get? "gender" with
                    | some (PyValue.str s) => valid_genders.contains s
                    | _ => false) then
            (false, some "Gender must be one of: Male, Female, Other")
          else
            match binary_fields.find?
                (fun f => !(["0", "1"].contains (pyStr ((data.get? f).getD PyValue.none)))) with
            | some f => (false, some (f ++ " must be 0 or 1."))
            | Option.none => (true, Option.none)

/-! ## Risk bucketing (prediction_service.py lines 137–146) -/

/-- The `if risk_probability < 0.33 / elif < 0.66 / else` chain: category and
display color as literally returned by the source. -/
def categorizeRisk (p : ℚ) : String × String :=
  if p < 33/100 then ("Low Risk", "green")
  else if p < 66/100 then ("Medium Risk", "orange")
  else ("High Risk", "red")

/-! ## Model artifacts (prediction_service.py lines 15–84)

The three pickled artifacts.  The classifier itself is pre-trained
third-party code; it is carried as an opaque total function from the scaled
feature vector to the class-1 probability (`predict_proba(..)[0][1]`). -/

/-- A fitted `sklearn.preprocessing.LabelEncoder`: its `classes_` list.
The trained vocabularies come from the CSV's categorical columns, so they
are lists of strings. -/
structure LabelEncoder where
  classes : List String
deriving DecidableEq, Repr

/-- `le.transform([v])[0]`: the index of `v` in `classes_`; a label not in
the vocabulary raises `ValueError`, modelled as `none`. -/
def LabelEncoder.transform? (le : LabelEncoder) (v : PyValue) : Option ℤ :=
  match v with
  | PyValue.str s => (le.classes.findIdx? (fun c => c == s)).map (fun i => (i : ℤ))
  | _ => none

/-- The `label_encoders.pkl` dict: field name → fitted encoder. -/
abbrev Encoders := List (String × LabelEncoder)

/-- A fitted `StandardScaler`: per-feature `mean_` and `scale_`. -/
structure Scaler where
  mean : List ℚ
  scale : List ℚ

/-- The pre-trained classifier, as its `predict_proba(X)[0][1]` map. -/
structure RiskModel where
  predictProba1 : List ℚ → ℚ

/-- The `PredictionService` singleton's mutable class attributes. -/
structure ServiceState where
  model : Option RiskModel
  scaler : Option Scaler
  label_encoders : Option Encoders

/-- What the file system offers for each artifact: `none` models "no
candidate path exists", `some a` models the first existing path unpickling
to `a`.  (The three-entry path search of the source collapses to this.) -/
structure Disk where
  model : Option RiskModel
  scaler : Option Scaler
  label_encoders : Option Encoders

/-- `load_model` (lines 29–84): early `True` when `_model` is cached;
otherwise load whatever the disk offers and report `True` iff all three
attributes are now set (sklearn artifact objects are truthy). -/
def load_model (st : ServiceState) (disk : Disk) : Bool × ServiceState :=
  if st.model.isSome then (true, st)
  else
    let st' : ServiceState :=
      { model := (disk.model).orElse (fun _ => st.model)
        scaler := (disk.scaler).orElse (fun _ => st.scaler)
        label_encoders := (disk.label_encoders).orElse (fun _ => st.label_encoders) }
    if st'.model.isSome && st'.scaler.isSome && st'.label_encoders.isSome then
      (true, st')
    else (false, st')

/-! ## The body of `predict_risk` (lines 110–153) -/

def categorical_cols : List String :=
  ["gender", "ever_married", "work_type", "Residence_type", "smoking_status"]

/-- One iteration of the encoding loop (lines 115–122): only when `col` is
both in the encoders dict and in `patient_data`; an unseen label is caught,
logged (second component) and defaulted to code `0`. -/
def encodeOne (encoders : Encoders) (patient_data : PyDict)
    (acc : PyDict × List String) (col : String) : PyDict × List String :=
  match encoders.find? (fun p => p.1 == col), patient_data.get? col with
  | some ple, some v =>
    match ple.2.transform? v with
    | some code => (acc.1.set col (PyValue.int code), acc.2)
    | Option.none =>
      (acc.1.set col (PyValue.int 0),
       acc.2 ++ ["Unseen label for " ++ col ++ ": " ++ pyStr v])
  | _, _ => acc

/-- `encoded_data = patient_data.copy()` followed by the encoding loop;
also returns the `logging.warning` messages emitted. -/
def encodeStep (encoders : Encoders) (patient_data : PyDict) : PyDict × List String :=
  categorical_cols.foldl (encodeOne encoders patient_data) (patient_data, [])

/-- The serving-time feature order (lines 125–129). -/
def feature_order : List String :=
  ["gender", "age", "hypertension", "heart_disease", "ever_married",
   "work_type", "Residence_type", "avg_glucose_level", "bmi", "smoking_status"]

/-- `[encoded_data[col] for col in cols]`: a missing key raises `KeyError`
(whose `str` is the quoted key) at the first offending column. -/
def getFeatures (encoded_data : PyDict) : List String → Except String (List PyValue)
  | [] => Except.ok []
  | c :: cs =>
    match encoded_data.get? c with
    | Option.none => Except.error ("'" ++ c ++ "'")
    | some v =>
      match getFeatures encoded_data cs with
      | Except.error e => Except.error e
      | Except.ok vs => Except.ok (v :: vs)

/-- numpy/sklearn coercion of one cell of `X_input` to a float: a cell left
as a string or `None` (a categorical column missing from the encoders dict)
makes `check_array` raise inside `scaler.transform`. -/
def toNumericCell : PyValue → Except String ℚ
  | PyValue.int n => Except.ok (n : ℚ)
  | PyValue.float q => Except.ok q
  | PyValue.str s => Except.error ("could not convert string to float: " ++ s)
  | PyValue.none => Except.error "float() argument must be a string or a number"

def toNumericCells : List PyValue → Except String (List ℚ)
  | [] => Except.ok []
  | v :: vs =>
    match toNumericCell v with
    | Except.error e => Except.error e
    | Except.ok x =>
      match toNumericCells vs with
      | Except.error e => Except.error e
      | Except.ok xs => Except.ok (x :: xs)

/-- Elementwise `(x - mean) / scale`. -/
def scaleCells : List ℚ → List ℚ → List ℚ → List ℚ
  | x :: xs, m :: ms, s :: ss => (x - m) / s :: scaleCells xs ms ss
  | _, _, _ => []

/-- `StandardScaler.transform` on a single row: numeric coercion, feature
count check against the fitted statistics, then the elementwise transform
(no clipping). -/
def Scaler.transform (sc : Scaler) (cells : List PyValue) : Except String (List ℚ) :=
  match toNumericCells cells with
  | Except.error e => Except.error e
  | Except.ok xs =>
    if xs.length == sc.mean.length && xs.length == sc.scale.length then
      Except.ok (scaleCells xs sc.mean sc.scale)
    else Except.error "X has a different number of features than during fitting"

/-- Python `round(x)`: round half to even, exact on the rational model. -/
def roundHalfEven (x : ℚ) : ℤ :=
  if x - ⌊x⌋ = 1/2 then (if ⌊x⌋ % 2 = 0 then ⌊x⌋ else ⌊x⌋ + 1) else ⌊x + 1/2⌋

/-- Python `round(x, 2)`. -/
def roundTo2 (x : ℚ) : ℚ := (roundHalfEven (x * 100) : ℚ) / 100

/-- A JSON-serializable response value. -/
inductive RVal where
  | bool (b : Bool)
  | num (q : ℚ)
  | str (s : String)
deriving DecidableEq, Repr

/-- A response dict, in insertion order. -/
abbrev Response := List (String × RVal)

/-- `{'success': False, 'error': e}`. -/
def mkFailure (e : String) : Response :=
  [("success", RVal.bool false), ("error", RVal.str e)]

/-- `{'success': True, 'risk_probability': p, 'risk_category': c,
'risk_color': k}` (lines 148–153). -/
def mkSuccess (p : ℚ) (cat color : String) : Response :=
  [("success", RVal.bool true), ("risk_probability", RVal.num p),
   ("risk_category", RVal.str cat), ("risk_color", RVal.str color)]

/-- The `try:` block of `predict_risk` (lines 110–153): encode, assemble
`X_input` in `feature_order`, scale, classify, bucket, and build the success
dict.  Every statement that can raise returns `Except.error` with the
message `str(e)` stands for; `_label_encoders`/`_scaler` being `None`
(possible after a partial load on a cached-model path) raise at their use
sites. -/
def tryBody (m : RiskModel) (scaler? : Option Scaler) (encoders? : Option Encoders)
    (patient_data : PyDict) : Except String Response :=
  match encoders? with
  | Option.none => Except.error "argument of type 'NoneType' is not iterable"
  | some encoders =>
    match getFeatures (encodeStep encoders patient_data).1 feature_order with
    | Except.error e => Except.error e
    | Except.ok cells =>
      match scaler? with
      | Option.none => Except.error "'NoneType' object has no attribute 'transform'"
      | some sc =>
        match sc.transform cells with
        | Except.error e => Except.error e
        | Except.ok x_scaled =>
          let risk_probability := m.predictProba1 x_scaled
          Except.ok (mkSuccess (roundTo2 (risk_probability * 100))
            (categorizeRisk risk_probability).1 (categorizeRisk risk_probability).2)

/-- `predict_risk` (lines 86–157): guard on `load_model`, the redundant
`_model is None` re-check, then the `try/except` body; any exception from
the body becomes `{'success': False, 'error': str(e)}`. -/
def predict_risk (st : ServiceState) (disk : Disk) (patient_data : PyDict) :
    Response × ServiceState :=
  let r := load_model st disk
  if !r.1 then (mkFailure "Model not loaded", r.2)
  else
    match r.2.model with
    | Option.none => (mkFailure "Model not available", r.2)
    | some m =>
      match tryBody m r.2.scaler r.2.label_encoders patient_data with
      | Except.ok resp => (resp, r.2)
      | Except.error e => (mkFailure e, r.2)

/-! ## Training-time feature order (scripts/train_model.py) -/

/-- Modelled from the spec: the training dataset
`data/healthcare-dataset-stroke-data.csv` is not part of the source tree.
Spec §3 gives the ordered tuple of the ten patient fields; the dataset
carries the `id` key column before them and the `stroke` label column after
them. -/
def dataset_columns : List String :=
  ["id", "gender", "age", "hypertension", "heart_disease", "ever_married",
   "work_type", "Residence_type", "avg_glucose_level", "bmi", "smoking_status",
   "stroke"]

/-- `X = df.drop(['id', 'stroke'], axis=1)` (train_model.py line 161); the
preprocessing and encoding steps before it fill or drop rows and rewrite
column values but never reorder columns, and `drop` keeps the remaining
columns in order. -/
def training_feature_order : List String :=
  dataset_columns.filter (fun c => !(c == "id" || c == "stroke"))

/-! ## The `/predict` route (app/routes/prediction.py lines 28–78) -/

/-- `float(v)` as an `Except`, for the route's conversions. -/
def pyFloatE (v : PyValue) : Except String ℚ :=
  match pyFloat v with
  | some q => Except.ok q
  | Option.none => Except.error "could not convert to float"

/-- `int(v)` as an `Except`. -/
def pyIntE (v : PyValue) : Except String ℤ :=
  match pyInt v with
  | some n => Except.ok n
  | Option.none => Except.error "invalid literal for int()"

/-- The `patient_data = {...}` literal (lines 49–60), whose values are
evaluated in order; a failing `float()`/`int()` raises at that entry.
After validation all raised errors here are `ValueError`s (`None` values,
which would raise `TypeError`, are already rejected). -/
def routeConvert (data : PyDict) : Except String PyDict :=
  match pyFloatE ((data.get? "age").getD PyValue.none) with
  | Except.error e => Except.error e
  | Except.ok age =>
    match pyIntE ((data.get? "hypertension").getD (PyValue.int 0)) with
    | Except.error e => Except.error e
    | Except.ok hyp =>
      match pyIntE ((data.get? "heart_disease").getD (PyValue.int 0)) with
      | Except.error e => Except.error e
      | Except.ok hd =>
        match pyFloatE ((data.get? "avg_glucose_level").getD PyValue.none) with
        | Except.error e => Except.error e
        | Except.ok gl =>
          match pyFloatE ((data.get? "bmi").getD PyValue.none) with
          | Except.error e => Except.error e
          | Except.ok bmi =>
            Except.ok
              [("gender", (data.get? "gender").getD PyValue.none),
               ("age", PyValue.float age),
               ("hypertension", PyValue.int hyp),
               ("heart_disease", PyValue.int hd),
               ("ever_married", (data.get? "ever_married").getD PyValue.none),
               ("work_type", (data.get? "work_type").getD PyValue.none),
               ("Residence_type", (data.get? "Residence_type").getD PyValue.none),
               ("avg_glucose_level", PyValue.float gl),
               ("bmi", PyValue.float bmi),
               ("smoking_status", (data.get? "smoking_status").getD PyValue.none)]

/-- The `/predict` handler: empty/None JSON guard, validation, conversion
(`except ValueError` → 400), then `predict_risk`; `jsonify(result)` is
returned with status 200.  The generic `except Exception` → 500 branch is
unreachable in the model: `predict_risk` returns a dict for every input. -/
def routePredict (st : ServiceState) (disk : Disk) (data : PyDict) :
    (Response × ℕ) × ServiceState :=
  if data.isEmpty then ((mkFailure "No data provided", 400), st)
  else
    let v := validate_prediction_input data
    if !v.1 then ((mkFailure (v.2.getD ""), 400), st)
    else
      match routeConvert data with
      | Except.error e => ((mkFailure ("Invalid input: " ++ e), 400), st)
      | Except.ok patient_data =>
        let pr := predict_risk st disk patient_data
        ((pr.1, 200), pr.2)

/-! ## Concrete fixtures

A small loaded-artifact set and concrete inputs, used to instantiate the
theorems below on closed terms.  The encoder vocabularies are the
alphabetically sorted `classes_` a `LabelEncoder` fit on the stroke
dataset's categorical columns produces. -/

def testEncoders : Encoders :=
  [("gender", ⟨["Female", "Male", "Other"]⟩),
   ("ever_married", ⟨["No", "Yes"]⟩),
   ("work_type", ⟨["Govt_job", "Never_worked", "Private", "Self-employed", "children"]⟩),
   ("Residence_type", ⟨["Rural", "Urban"]⟩),
   ("smoking_status", ⟨["Unknown", "formerly smoked", "never smoked", "smokes"]⟩)]

def testScaler : Scaler := ⟨List.replicate 10 0, List.replicate 10 1⟩

def testModel : RiskModel := ⟨fun _ => 1/2⟩

/-- A fully loaded service state. -/
def testState : ServiceState := ⟨some testModel, some testScaler, some testEncoders⟩

/-- The service state before any artifact has been loaded. -/
def freshState : ServiceState := ⟨Option.none, Option.none, Option.none⟩

/-- A file system on which none of the artifact files exist. -/
def emptyDisk : Disk := ⟨Option.none, Option.none, Option.none⟩

/-- The spec §8 example input. -/
def testInput : PyDict :=
  [("gender", PyValue.str "Male"), ("age", PyValue.float 45),
   ("hypertension", PyValue.int 0), ("heart_disease", PyValue.int 0),
   ("ever_married", PyValue.str "Yes"), ("work_type", PyValue.str "Private"),
   ("Residence_type", PyValue.str "Urban"),
   ("avg_glucose_level", PyValue.float (mkRat 1205 10)),
   ("bmi", PyValue.float (mkRat 256 10)),
   ("smoking_status", PyValue.str "never smoked")]

/-- `testInput` with a non-numeric `age`. -/
def badAgeInput : PyDict :=
  testInput.set "age" (PyValue.str "abc")

/-- `testInput` with a `smoking_status` outside the trained vocabulary. -/
def unseenSmokingInput : PyDict :=
  testInput.set "smoking_status" (PyValue.str "vapes")

/-- A full record (both `bmi` and `stroke` present) with a negative age:
well-formed for the prediction validator, out of range for the patient
validator. -/
def negativeAgeRecord : PyDict :=
  (testInput.set "age" (PyValue.float (-5))) ++ [("stroke", PyValue.int 0)]

/-- A full record with a glucose level above 500. -/
def highGlucoseRecord : PyDict :=
  (testInput.set "avg_glucose_level" (PyValue.float 600)) ++ [("stroke", PyValue.int 0)]

/-! # Dictionary lemmas -/

theorem find?_map_set_eq (d : PyDict) (k : String) (v : PyValue)
    (h : d.any (fun p => p.1 == k) = true) :
    (d.map (fun p => if p.1 == k then (k, v) else p)).find? (fun p => p.1 == k) =
      some (k, v) := by
  induction d with
  | nil => simp at h
  | cons p ps ih =>
    by_cases hpk : p.1 = k
    · rw [List.map_cons, if_pos (by simp [hpk])]
      exact List.find?_cons_of_pos _ (by simp)
    · have hps : ps.any (fun p => p.1 == k) = true := by
        rcases List.any_eq_true.mp h with ⟨x, hx, hxk⟩
        rcases List.mem_cons.mp hx with rfl | hx'
        · exact absurd (by simpa using hxk) hpk
        · exact List.any_eq_true.mpr ⟨x, hx', hxk⟩
      rw [List.map_cons, if_neg (by simp [hpk]),
        List.find?_cons_of_neg _ (by simp [hpk]), ih hps]

theorem find?_map_set_ne (d : PyDict) (k k' : String) (v : PyValue) (h : k' ≠ k) :
    (d.map (fun p => if p.1 == k then (k, v) else p)).find? (fun p => p.1 == k') =
      d.find? (fun p => p.1 == k') := by
  induction d with
  | nil => rfl
  | cons p ps ih =>
    rw [List.map_cons]
    by_cases hpk : p.1 = k
    · rw [if_pos (by simp [hpk])]
      rw [List.find?_cons_of_neg _ (by simpa using Ne.symm h),
        List.find?_cons_of_neg _ (by simp [hpk]; exact Ne.symm h), ih]
    · rw [if_neg (by simp [hpk])]
      by_cases hp' : p.1 = k'
      · rw [List.find?_cons_of_pos _ (by simp [hp']),
          List.find?_cons_of_pos _ (by simp [hp'])]
      · rw [List.find?_cons_of_neg _ (by simp [hp']),
          List.find?_cons_of_neg _ (by simp [hp']), ih]

theorem get?_set_eq (d : PyDict) (k : String) (v : PyValue) :
    (d.set k v).get? k = some v := by
  unfold PyDict.set PyDict.get?
  by_cases h : d.any (fun p => p.1 == k) = true
  · rw [if_pos h, find?_map_set_eq d k v h]
    rfl
  · rw [if_neg h]
    have hnone : d.find? (fun p => p.1 == k) = Option.none := by
      rw [List.find?_eq_none]
      intro x hx hxk
      exact h (List.any_eq_true.mpr ⟨x, hx, hxk⟩)
    rw [List.find?_append, hnone, Option.none_or]
    simp

theorem get?_set_ne (d : PyDict) (k k' : String) (v : PyValue) (h : k' ≠ k) :
    (d.set k v).get? k' = d.get? k' := by
  unfold PyDict.set PyDict.get?
  by_cases hany : d.any (fun p => p.1 == k) = true
  · rw [if_pos hany, find?_map_set_ne d k k' v h]
  · rw [if_neg hany, List.find?_append]
    have hsingle : List.find? (fun p => p.1 == k') [(k, v)] = Option.none := by
      simp [Ne.symm h]
    rw [hsingle, Option.or_none]

/-! # Rounding lemmas -/

theorem roundHalfEven_le (x : ℚ) (n : ℤ) (h : x ≤ (n : ℚ)) : roundHalfEven x ≤ n := by
  unfold roundHalfEven
  by_cases hhalf : x - ⌊x⌋ = 1/2
  · rw [if_pos hhalf]
    have hfl : (⌊x⌋ : ℚ) = x - 1/2 := by linarith
    have hlt : ⌊x⌋ < n := by
      have : (⌊x⌋ : ℚ) < (n : ℚ) := by rw [hfl]; linarith
      exact_mod_cast this
    by_cases hpar : ⌊x⌋ % 2 = 0
    · rw [if_pos hpar]; omega
    · rw [if_neg hpar]; omega
  · rw [if_neg hhalf]
    have : ⌊x + 1/2⌋ < n + 1 := by
      rw [Int.floor_lt]
      push_cast
      linarith
    omega

theorem le_roundHalfEven (x : ℚ) (n : ℤ) (h : (n : ℚ) ≤ x) : n ≤ roundHalfEven x := by
  unfold roundHalfEven
  have hfl : n ≤ ⌊x⌋ := Int.le_floor.mpr h
  by_cases hhalf : x - ⌊x⌋ = 1/2
  · rw [if_pos hhalf]
    by_cases hpar : ⌊x⌋ % 2 = 0
    · rw [if_pos hpar]; exact hfl
    · rw [if_neg hpar]; omega
  · rw [if_neg hhalf]
    refine Int.le_floor.mpr ?_
    linarith

theorem roundTo2_bounds (y : ℚ) (h0 : 0 ≤ y) (h1 : y ≤ 100) :
    0 ≤ roundTo2 y ∧ roundTo2 y ≤ 100 := by
  unfold roundTo2
  have hlo : (0 : ℤ) ≤ roundHalfEven (y * 100) :=
    le_roundHalfEven (y * 100) 0 (by push_cast; linarith)
  have hhi : roundHalfEven (y * 100) ≤ (10000 : ℤ) :=
    roundHalfEven_le (y * 100) 10000 (by push_cast; linarith)
  constructor
  · have : (0 : ℚ) ≤ (roundHalfEven (y * 100) : ℚ) := by exact_mod_cast hlo
    positivity
  · rw [div_le_iff₀ (by norm_num : (0:ℚ) < 100)]
    have : ((roundHalfEven (y * 100) : ℚ)) ≤ 10000 := by exact_mod_cast hhi
    linarith

/-! # Claims -/

/-- C1: the risk bucketer is a deterministic thresholding of the
probability: `p < 0.33` gives the Low bucket with color green, `0.33 ≤ p <
0.66` the Medium bucket with orange, `p ≥ 0.66` the High bucket with red,
and the ties `0.33` / `0.66` resolve to the higher bucket (`0.32 → Low`,
`0.33 → Medium`, `0.659 → Medium`, `0.66 → High`). -/
theorem C1_risk_bucketing (p : ℚ) :
    (p < 33/100 → categorizeRisk p = ("Low Risk", "green")) ∧
    (33/100 ≤ p → p < 66/100 → categorizeRisk p = ("Medium Risk", "orange")) ∧
    (66/100 ≤ p → categorizeRisk p = ("High Risk", "red")) ∧
    categorizeRisk (32/100) = ("Low Risk", "green") ∧
    categorizeRisk (33/100) = ("Medium Risk", "orange") ∧
    categorizeRisk (659/1000) = ("Medium Risk", "orange") ∧
    categorizeRisk (66/100) = ("High Risk", "red") := by
  refine ⟨?_, ?_, ?_, ?_, ?_, ?_, ?_⟩
  · intro h
    unfold categorizeRisk
    rw [if_pos h]
  · intro h1 h2
    unfold categorizeRisk
    rw [if_neg (not_lt.mpr h1), if_pos h2]
  · intro h
    unfold categorizeRisk
    rw [if_neg (not_lt.mpr (by linarith)), if_neg (not_lt.mpr h)]
  all_goals with_unfolding_all decide

/-- Witness for C1 at concrete probabilities in each bucket. -/
theorem C1_risk_bucketing_witness :
    categorizeRisk (1/10) = ("Low Risk", "green") ∧
    categorizeRisk (1/2) = ("Medium Risk", "orange") ∧
    categorizeRisk (9/10) = ("High Risk", "red") :=
  ⟨(C1_risk_bucketing (1/10)).1 (by norm_num),
   (C1_risk_bucketing (1/2)).2.1 (by norm_num) (by norm_num),
   (C1_risk_bucketing (9/10)).2.2.1 (by norm_num)⟩

/-- C2: the serving-time feature order of `predict_risk` is exactly the
training-time column order, i.e. the dataset columns after dropping `id`
and `stroke`. -/
theorem C2_feature_order_matches_training :
    feature_order = training_feature_order := by decide

/-- C6: when the artifact files are absent and no model is cached,
`load_model` returns `False` and `predict_risk` returns the structured
failure `{'success': False, 'error': 'Model not loaded'}` — a value, not an
escaping exception. -/
theorem C6_missing_artifacts_reported (st : ServiceState) (data : PyDict)
    (hm : st.model = Option.none) :
    (load_model st emptyDisk).1 = false ∧
    (predict_risk st emptyDisk data).1 = mkFailure "Model not loaded" := by
  constructor
  · simp [load_model, hm, emptyDisk, Option.orElse]
  · simp [predict_risk, load_model, hm, emptyDisk, Option.orElse]

/-- Witness for C6: a fresh service against an empty file system. -/
theorem C6_missing_artifacts_reported_witness :
    (load_model freshState emptyDisk).1 = false ∧
    (predict_risk freshState emptyDisk testInput).1 = mkFailure "Model not loaded" :=
  C6_missing_artifacts_reported freshState testInput rfl

/-- C8: with the model artifact loaded, `predict_risk` leaves the service
state unchanged and a second run on the identical input returns the
identical output dictionary. -/
theorem predict_risk_state (st : ServiceState) (disk : Disk) (data : PyDict) :
    (predict_risk st disk data).2 = (load_model st disk).2 := by
  simp only [predict_risk]
  split
  · rfl
  · split
    · rfl
    · split <;> rfl

theorem C8_two_run_determinism (st : ServiceState) (disk : Disk) (data : PyDict)
    (h : st.model.isSome = true) :
    (predict_risk st disk data).2 = st ∧
    (predict_risk (predict_risk st disk data).2 disk data).1 =
      (predict_risk st disk data).1 := by
  have hload : load_model st disk = (true, st) := by
    unfold load_model
    rw [if_pos h]
  have hstate : (predict_risk st disk data).2 = st := by
    rw [predict_risk_state, hload]
  exact ⟨hstate, by rw [hstate]⟩

/-- Witness for C8 on the loaded fixture state. -/
theorem C8_two_run_determinism_witness :
    (predict_risk testState emptyDisk testInput).2 = testState ∧
    (predict_risk (predict_risk testState emptyDisk testInput).2 emptyDisk testInput).1 =
      (predict_risk testState emptyDisk testInput).1 :=
  C8_two_run_determinism testState emptyDisk testInput rfl

/-! # Encoding-loop lemmas (toward C4) -/

theorem encodeOne_get?_ne (e : Encoders) (data : PyDict) (acc : PyDict × List String)
    (c col : String) (h : col ≠ c) :
    (encodeOne e data acc c).1.get? col = acc.1.get? col := by
  unfold encodeOne
  split
  · split
    · exact get?_set_ne _ _ _ _ h
    · exact get?_set_ne _ _ _ _ h
  · rfl

theorem encodeOne_logs_mono (e : Encoders) (data : PyDict) (acc : PyDict × List String)
    (c : String) : ∃ t, (encodeOne e data acc c).2 = acc.2 ++ t := by
  unfold encodeOne
  split
  · split
    · exact ⟨[], by simp⟩
    · exact ⟨_, rfl⟩
  · exact ⟨[], by simp⟩

theorem foldl_encode_get?_not_mem (e : Encoders) (data : PyDict) (cols : List String)
    (col : String) (h : col ∉ cols) :
    ∀ acc, (cols.foldl (encodeOne e data) acc).1.get? col = acc.1.get? col := by
  induction cols with
  | nil => intro acc; rfl
  | cons c cs ih =>
    intro acc
    rw [List.foldl_cons]
    have hne : col ≠ c := fun hc => h (hc ▸ List.mem_cons_self c cs)
    rw [ih (fun hm => h (List.mem_cons_of_mem c hm)) _,
      encodeOne_get?_ne e data acc c col hne]

theorem foldl_encode_logs_mono (e : Encoders) (data : PyDict) (cols : List String) :
    ∀ acc, ∃ t, (cols.foldl (encodeOne e data) acc).2 = acc.2 ++ t := by
  induction cols with
  | nil => intro acc; exact ⟨[], by simp⟩
  | cons c cs ih =>
    intro acc
    rw [List.foldl_cons]
    obtain ⟨t1, ht1⟩ := encodeOne_logs_mono e data acc c
    obtain ⟨t2, ht2⟩ := ih (encodeOne e data acc c)
    exact ⟨t1 ++ t2, by rw [ht2, ht1, List.append_assoc]⟩

theorem transform?_unseen (le : String × LabelEncoder) (s : String)
    (hunseen : le.2.classes.findIdx? (fun c => c == s) = Option.none) :
    le.2.transform? (PyValue.str s) = Option.none := by
  have hdef : le.2.transform? (PyValue.str s) =
      (le.2.classes.findIdx? (fun c => c == s)).map (fun i => (i : ℤ)) := rfl
  rw [hdef, hunseen]
  rfl

theorem encodeOne_unseen (e : Encoders) (data : PyDict) (col : String)
    (le : String × LabelEncoder) (s : String)
    (henc : e.find? (fun p => p.1 == col) = some le)
    (hval : data.get? col = some (PyValue.str s))
    (hunseen : le.2.classes.findIdx? (fun c => c == s) = Option.none)
    (acc : PyDict × List String) :
    encodeOne e data acc col =
      (acc.1.set col (PyValue.int 0),
       acc.2 ++ ["Unseen label for " ++ col ++ ": " ++ s]) := by
  simp only [encodeOne, henc, hval, transform?_unseen le s hunseen, pyStr]

theorem foldl_encode_unseen (e : Encoders) (data : PyDict) (col : String)
    (le : String × LabelEncoder) (s : String)
    (henc : e.find? (fun p => p.1 == col) = some le)
    (hval : data.get? col = some (PyValue.str s))
    (hunseen : le.2.classes.findIdx? (fun c => c == s) = Option.none)
    (cols : List String) :
    ∀ acc, col ∈ cols → cols.Nodup →
      (cols.foldl (encodeOne e data) acc).1.get? col = some (PyValue.int 0) ∧
      ("Unseen label for " ++ col ++ ": " ++ s) ∈ (cols.foldl (encodeOne e data) acc).2 := by
  induction cols with
  | nil => intro acc hmem; exact absurd hmem (List.not_mem_nil col)
  | cons c cs ih =>
    intro acc hmem hnodup
    rw [List.foldl_cons]
    rcases List.mem_cons.mp hmem with rfl | hmem'
    · rw [encodeOne_unseen e data col le s henc hval hunseen acc]
      have hnotmem : col ∉ cs := (List.nodup_cons.mp hnodup).1
      constructor
      · rw [foldl_encode_get?_not_mem e data cs col hnotmem _]
        exact get?_set_eq _ _ _
      · obtain ⟨t, ht⟩ := foldl_encode_logs_mono e data cs _
        rw [ht]
        simp
    · exact ih _ hmem' (List.nodup_cons.mp hnodup).2

/-! Pointwise equivalence of the encoded dictionaries: feeding the unseen
value is indistinguishable, downstream of the encoding loop, from feeding
the default code 0. -/

theorem set_pointwise (d1 d2 : PyDict) (k : String) (v : PyValue)
    (h : ∀ key, d1.get? key = d2.get? key) :
    ∀ key, (d1.set k v).get? key = (d2.set k v).get? key := by
  intro key
  by_cases hk : key = k
  · subst hk; rw [get?_set_eq, get?_set_eq]
  · rw [get?_set_ne _ _ _ _ hk, get?_set_ne _ _ _ _ hk, h key]

theorem set_pointwise_ne (d1 d2 : PyDict) (k : String) (v : PyValue) (col : String)
    (h : ∀ key, key ≠ col → d1.get? key = d2.get? key) :
    ∀ key, key ≠ col → (d1.set k v).get? key = (d2.set k v).get? key := by
  intro key hkey
  by_cases hk : key = k
  · subst hk; rw [get?_set_eq, get?_set_eq]
  · rw [get?_set_ne _ _ _ _ hk, get?_set_ne _ _ _ _ hk, h key hkey]

theorem encodeOne_default_code (e : Encoders) (data : PyDict) (col : String)
    (le : String × LabelEncoder)
    (henc : e.find? (fun p => p.1 == col) = some le)
    (acc : PyDict × List String) :
    encodeOne e (data.set col (PyValue.int 0)) acc col =
      (acc.1.set col (PyValue.int 0),
       acc.2 ++ ["Unseen label for " ++ col ++ ": " ++ pyStr (PyValue.int 0)]) := by
  unfold encodeOne
  rw [henc, get?_set_eq data col (PyValue.int 0)]
  rfl

theorem encodeOne_pointwise (e : Encoders) (data : PyDict) (col : String)
    (le : String × LabelEncoder) (s : String)
    (henc : e.find? (fun p => p.1 == col) = some le)
    (hval : data.get? col = some (PyValue.str s))
    (hunseen : le.2.classes.findIdx? (fun c => c == s) = Option.none)
    (c : String) (acc1 acc2 : PyDict × List String)
    (h : ∀ key, acc1.1.get? key = acc2.1.get? key) :
    ∀ key, (encodeOne e data acc1 c).1.get? key =
      (encodeOne e (data.set col (PyValue.int 0)) acc2 c).1.get? key := by
  by_cases hc : c = col
  · subst hc
    intro key
    rw [encodeOne_unseen e data c le s henc hval hunseen acc1,
      encodeOne_default_code e data c le henc acc2]
    show (acc1.1.set c (PyValue.int 0)).get? key = (acc2.1.set c (PyValue.int 0)).get? key
    exact set_pointwise _ _ _ _ h key
  · intro key
    unfold encodeOne
    rw [get?_set_ne data col c (PyValue.int 0) hc]
    split
    · split
      · exact set_pointwise _ _ _ _ h key
      · exact set_pointwise _ _ _ _ h key
    · exact h key

theorem encodeOne_pointwise_ne (e : Encoders) (data : PyDict) (col c : String)
    (acc1 acc2 : PyDict × List String) (hc : c ≠ col)
    (h : ∀ key, key ≠ col → acc1.1.get? key = acc2.1.get? key) :
    ∀ key, key ≠ col → (encodeOne e data acc1 c).1.get? key =
      (encodeOne e (data.set col (PyValue.int 0)) acc2 c).1.get? key := by
  intro key hkey
  unfold encodeOne
  rw [get?_set_ne data col c (PyValue.int 0) hc]
  split
  · split
    · exact set_pointwise_ne _ _ _ _ col h key hkey
    · exact set_pointwise_ne _ _ _ _ col h key hkey
  · exact h key hkey

theorem foldl_encode_pointwise_eq (e : Encoders) (data : PyDict) (col : String)
    (le : String × LabelEncoder) (s : String)
    (henc : e.find? (fun p => p.1 == col) = some le)
    (hval : data.get? col = some (PyValue.str s))
    (hunseen : le.2.classes.findIdx? (fun c => c == s) = Option.none)
    (cols : List String) :
    ∀ acc1 acc2, (∀ key, acc1.1.get? key = acc2.1.get? key) →
      ∀ key, (cols.foldl (encodeOne e data) acc1).1.get? key =
        (cols.foldl (encodeOne e (data.set col (PyValue.int 0))) acc2).1.get? key := by
  induction cols with
  | nil => intro acc1 acc2 h; exact h
  | cons c cs ih =>
    intro acc1 acc2 h
    rw [List.foldl_cons, List.foldl_cons]
    exact ih _ _ (encodeOne_pointwise e data col le s henc hval hunseen c acc1 acc2 h)

theorem foldl_encode_pointwise_mem (e : Encoders) (data : PyDict) (col : String)
    (le : String × LabelEncoder) (s : String)
    (henc : e.find? (fun p => p.1 == col) = some le)
    (hval : data.get? col = some (PyValue.str s))
    (hunseen : le.2.classes.findIdx? (fun c => c == s) = Option.none)
    (cols : List String) :
    ∀ acc1 acc2, col ∈ cols →
      (∀ key, key ≠ col → acc1.1.get? key = acc2.1.get? key) →
      ∀ key, (cols.foldl (encodeOne e data) acc1).1.get? key =
        (cols.foldl (encodeOne e (data.set col (PyValue.int 0))) acc2).1.get? key := by
  induction cols with
  | nil => intro acc1 acc2 hmem; exact absurd hmem (List.not_mem_nil col)
  | cons c cs ih =>
    intro acc1 acc2 hmem h
    rw [List.foldl_cons, List.foldl_cons]
    by_cases hc : c = col
    · subst hc
      refine foldl_encode_pointwise_eq e data c le s henc hval hunseen cs _ _ ?_
      intro key
      rw [encodeOne_unseen e data c le s henc hval hunseen acc1,
        encodeOne_default_code e data c le henc acc2]
      show (acc1.1.set c (PyValue.int 0)).get? key = (acc2.1.set c (PyValue.int 0)).get? key
      by_cases hkey : key = c
      · subst hkey; rw [get?_set_eq, get?_set_eq]
      · rw [get?_set_ne _ _ _ _ hkey, get?_set_ne _ _ _ _ hkey, h key hkey]
    · rcases List.mem_cons.mp hmem with hcc | hmem'
      · exact absurd hcc.symm hc
      · exact ih _ _ hmem'
          (encodeOne_pointwise_ne e data col c acc1 acc2 hc h)

theorem encodeStep_pointwise (e : Encoders) (data : PyDict) (col : String)
    (le : String × LabelEncoder) (s : String)
    (hcol : col ∈ categorical_cols)
    (henc : e.find? (fun p => p.1 == col) = some le)
    (hval : data.get? col = some (PyValue.str s))
    (hunseen : le.2.classes.findIdx? (fun c => c == s) = Option.none) :
    ∀ key, (encodeStep e data).1.get? key =
      (encodeStep e (data.set col (PyValue.int 0))).1.get? key := by
  refine foldl_encode_pointwise_mem e data col le s henc hval hunseen
    categorical_cols _ _ hcol ?_
  intro key hkey
  rw [get?_set_ne data col key (PyValue.int 0) hkey]

theorem getFeatures_congr (d1 d2 : PyDict) (cols : List String)
    (h : ∀ key, d1.get? key = d2.get? key) :
    getFeatures d1 cols = getFeatures d2 cols := by
  induction cols with
  | nil => rfl
  | cons c cs ih =>
    unfold getFeatures
    rw [h c, ih]

theorem tryBody_unseen_eq (m : RiskModel) (sc? : Option Scaler) (e : Encoders)
    (data : PyDict) (col : String) (le : String × LabelEncoder) (s : String)
    (hcol : col ∈ categorical_cols)
    (henc : e.find? (fun p => p.1 == col) = some le)
    (hval : data.get? col = some (PyValue.str s))
    (hunseen : le.2.classes.findIdx? (fun c => c == s) = Option.none) :
    tryBody m sc? (some e) data = tryBody m sc? (some e) (data.set col (PyValue.int 0)) := by
  simp only [tryBody]
  rw [getFeatures_congr _ _ feature_order
    (encodeStep_pointwise e data col le s hcol henc hval hunseen)]

/-- C4: an unseen categorical field value does not raise an exception: the
encoding loop logs the occurrence, assigns the defined default code 0, and
the prediction proceeds — the run is indistinguishable from one whose input
carries the default code itself. -/
theorem C4_unseen_category_defaulted (encs : Encoders) (data : PyDict)
    (col : String) (le : String × LabelEncoder) (s : String)
    (hcol : col ∈ categorical_cols)
    (henc : encs.find? (fun p => p.1 == col) = some le)
    (hval : data.get? col = some (PyValue.str s))
    (hunseen : le.2.classes.findIdx? (fun c => c == s) = Option.none) :
    (encodeStep encs data).1.get? col = some (PyValue.int 0) ∧
    ("Unseen label for " ++ col ++ ": " ++ s) ∈ (encodeStep encs data).2 ∧
    ∀ m sc disk,
      (predict_risk ⟨some m, some sc, some encs⟩ disk data).1 =
        (predict_risk ⟨some m, some sc, some encs⟩ disk
          (data.set col (PyValue.int 0))).1 := by
  have hnodup : categorical_cols.Nodup := by decide
  obtain ⟨h1, h2⟩ := foldl_encode_unseen encs data col le s henc hval hunseen
    categorical_cols (data, []) hcol hnodup
  refine ⟨h1, h2, ?_⟩
  intro m sc disk
  have htb := tryBody_unseen_eq m (some sc) encs data col le s hcol henc hval hunseen
  simp [predict_risk, load_model, htb]

/-- Witness for C4: `smoking_status = "vapes"` is outside the trained
vocabulary; it is logged, encoded as the default code 0, and the whole
pipeline behaves as on the default code. -/
theorem C4_unseen_category_defaulted_witness :
    (encodeStep testEncoders unseenSmokingInput).1.get? "smoking_status" =
      some (PyValue.int 0) ∧
    ("Unseen label for " ++ "smoking_status" ++ ": " ++ "vapes") ∈
      (encodeStep testEncoders unseenSmokingInput).2 ∧
    ∀ m sc disk,
      (predict_risk ⟨some m, some sc, some testEncoders⟩ disk unseenSmokingInput).1 =
        (predict_risk ⟨some m, some sc, some testEncoders⟩ disk
          (unseenSmokingInput.set "smoking_status" (PyValue.int 0))).1 :=
  C4_unseen_category_defaulted testEncoders unseenSmokingInput "smoking_status"
    ("smoking_status", ⟨["Unknown", "formerly smoked", "never smoked", "smokes"]⟩) "vapes"
    (by decide) (by decide) (by decide) (by decide)

/-- C3: any input in which a required field is absent, `None` or empty, or
in which a numeric field does not parse as a float, is rejected by
`validate_prediction_input`, and the `/predict` route answers it with a 400
failure response that leaves the service state untouched and holds for
every state and disk — `predict_risk` and the model are never invoked. -/
theorem C3_invalid_input_rejected (data : PyDict) (st : ServiceState) (disk : Disk)
    (h : (∃ f ∈ pred_required_fields, missingOrEmpty data f = true) ∨
         (∃ f ∈ pred_numeric_fields,
            pyFloat ((data.get? f).getD PyValue.none) = Option.none)) :
    ∃ msg, validate_prediction_input data = (false, some msg) ∧
      routePredict st disk data =
        ((mkFailure (if data.isEmpty then "No data provided" else msg), 400), st) := by
  have hval : ∃ msg, validate_prediction_input data = (false, some msg) := by
    unfold validate_prediction_input
    cases hfind : pred_required_fields.find? (missingOrEmpty data) with
    | some f => exact ⟨_, rfl⟩
    | none =>
      rcases h with ⟨f, hf, hmiss⟩ | ⟨f, hf, hnum⟩
      · exact absurd hmiss (by simpa using List.find?_eq_none.mp hfind f hf)
      · cases hfind2 : pred_numeric_fields.find?
            (fun f => (pyFloat ((data.get? f).getD PyValue.none)).isNone) with
        | some g => exact ⟨_, rfl⟩
        | none =>
          have hne := List.find?_eq_none.mp hfind2 f hf
          simp [hnum] at hne
  obtain ⟨msg, hmsg⟩ := hval
  refine ⟨msg, hmsg, ?_⟩
  by_cases hempty : data.isEmpty = true
  · simp [routePredict, hempty]
  · have hempty' : data.isEmpty = false := by
      exact Bool.eq_false_iff.mpr hempty
    simp [routePredict, hempty', hmsg]

/-- Witness for C3: the fixture input whose `age` is the string `abc`. -/
theorem C3_invalid_input_rejected_witness :
    ∃ msg, validate_prediction_input badAgeInput = (false, some msg) ∧
      routePredict testState emptyDisk badAgeInput =
        ((mkFailure (if badAgeInput.isEmpty then "No data provided" else msg), 400),
          testState) :=
  C3_invalid_input_rejected badAgeInput testState emptyDisk
    (Or.inr ⟨"age", by decide, by decide⟩)

/-- Every `Except.ok` result of the `try:` body is the success dict built
from the classifier probability of the run. -/
theorem tryBody_ok_shape (m : RiskModel) (sc? : Option Scaler) (e? : Option Encoders)
    (data : PyDict) (resp : Response)
    (h : tryBody m sc? e? data = Except.ok resp) :
    ∃ p, resp = mkSuccess (roundTo2 (p * 100)) (categorizeRisk p).1 (categorizeRisk p).2 := by
  unfold tryBody at h
  split at h
  · simp at h
  · split at h
    · simp at h
    · split at h
      · simp at h
      · split at h
        · simp at h
        · injection h with h
          exact ⟨_, h.symm⟩

/-- C7: `predict_risk` is total across the pipeline boundary: every result
is one of the two structured dicts (never an escaping exception), and when
the loaded body raises, the raised message is returned as
`{'success': False, 'error': str(e)}`. -/
theorem C7_no_raw_exception (st : ServiceState) (disk : Disk) (data : PyDict) :
    ((∃ e, (predict_risk st disk data).1 = mkFailure e) ∨
     (∃ p c k, (predict_risk st disk data).1 = mkSuccess p c k)) ∧
    (∀ m e, (load_model st disk).1 = true →
      (load_model st disk).2.model = some m →
      tryBody m (load_model st disk).2.scaler (load_model st disk).2.label_encoders data =
        Except.error e →
      (predict_risk st disk data).1 = mkFailure e) := by
  constructor
  · cases hok : (load_model st disk).1 with
    | false => exact Or.inl ⟨"Model not loaded", by simp [predict_risk, hok]⟩
    | true =>
      cases hm : (load_model st disk).2.model with
      | none => exact Or.inl ⟨"Model not available", by simp [predict_risk, hok, hm]⟩
      | some m =>
        cases htb : tryBody m (load_model st disk).2.scaler
            (load_model st disk).2.label_encoders data with
        | error e => exact Or.inl ⟨e, by simp [predict_risk, hok, hm, htb]⟩
        | ok resp =>
          obtain ⟨p, hp⟩ := tryBody_ok_shape m _ _ data resp htb
          exact Or.inr ⟨roundTo2 (p * 100), (categorizeRisk p).1, (categorizeRisk p).2,
            by simp [predict_risk, hok, hm, htb, hp]⟩
  · intro m e hok hm htb
    simp [predict_risk, hok, hm, htb]

/-- Witness for C7: a loaded state with an empty input dict; the list
comprehension raises `KeyError: 'gender'` and the caller receives it as a
structured failure. -/
theorem C7_no_raw_exception_witness :
    (predict_risk testState emptyDisk []).1 = mkFailure "'gender'" :=
  (C7_no_raw_exception testState emptyDisk []).2 testModel "'gender'" rfl rfl
    (by with_unfolding_all rfl)

/-- C9: every `predict_risk` response is exactly one of the two serialized
shapes: on failure `{'success': False, 'error': e}`; on success
`{'success': True, 'risk_probability': round(p * 100, 2),
'risk_category': c, 'risk_color': k}` where `p` is the classifier
probability of the run and `(c, k)` its bucket. -/
theorem C9_response_schema (st : ServiceState) (disk : Disk) (data : PyDict) :
    (∃ e, (predict_risk st disk data).1 = mkFailure e) ∨
    (∃ p, (predict_risk st disk data).1 =
      mkSuccess (roundTo2 (p * 100)) (categorizeRisk p).1 (categorizeRisk p).2) := by
  cases hok : (load_model st disk).1 with
  | false => exact Or.inl ⟨"Model not loaded", by simp [predict_risk, hok]⟩
  | true =>
    cases hm : (load_model st disk).2.model with
    | none => exact Or.inl ⟨"Model not available", by simp [predict_risk, hok, hm]⟩
    | some m =>
      cases htb : tryBody m (load_model st disk).2.scaler
          (load_model st disk).2.label_encoders data with
      | error e => exact Or.inl ⟨e, by simp [predict_risk, hok, hm, htb]⟩
      | ok resp =>
        obtain ⟨p, hp⟩ := tryBody_ok_shape m _ _ data resp htb
        exact Or.inr ⟨p, by simp [predict_risk, hok, hm, htb, hp]⟩

/-- C5: under the third-party classifier contract (probabilities lie in
[0,1]) a run whose encoding and scaling succeed produces a probability in
[0,1], a category among the three buckets, a color among the three colors,
and a serialized percentage in [0,100]. -/
theorem C5_probability_and_category_ranges (m : RiskModel) (sc : Scaler)
    (encs : Encoders) (disk : Disk) (data : PyDict) (cells : List PyValue)
    (xs : List ℚ) (p : ℚ)
    (hcontract : ∀ x, 0 ≤ m.predictProba1 x ∧ m.predictProba1 x ≤ 1)
    (hcells : getFeatures (encodeStep encs data).1 feature_order = Except.ok cells)
    (hxs : Scaler.transform sc cells = Except.ok xs)
    (hp : p = m.predictProba1 xs) :
    0 ≤ p ∧ p ≤ 1 ∧
    (predict_risk ⟨some m, some sc, some encs⟩ disk data).1 =
      mkSuccess (roundTo2 (p * 100)) (categorizeRisk p).1 (categorizeRisk p).2 ∧
    ((categorizeRisk p).1 = "Low Risk" ∨ (categorizeRisk p).1 = "Medium Risk" ∨
      (categorizeRisk p).1 = "High Risk") ∧
    ((categorizeRisk p).2 = "green" ∨ (categorizeRisk p).2 = "orange" ∨
      (categorizeRisk p).2 = "red") ∧
    0 ≤ roundTo2 (p * 100) ∧ roundTo2 (p * 100) ≤ 100 := by
  have h0 : 0 ≤ p := hp ▸ (hcontract xs).1
  have h1 : p ≤ 1 := hp ▸ (hcontract xs).2
  have htb : tryBody m (some sc) (some encs) data =
      Except.ok (mkSuccess (roundTo2 (p * 100)) (categorizeRisk p).1 (categorizeRisk p).2) := by
    simp only [tryBody, hcells, hxs]
    rw [hp]
  have hbounds := roundTo2_bounds (p * 100) (by linarith) (by linarith)
  refine ⟨h0, h1, ?_, ?_, ?_, hbounds.1, hbounds.2⟩
  · simp [predict_risk, load_model, htb]
  · unfold categorizeRisk
    split_ifs <;> simp
  · unfold categorizeRisk
    split_ifs <;> simp

/-- Witness for C5: the spec §8 example input against the fixture
artifacts, whose classifier returns probability 1/2. -/
theorem C5_probability_and_category_ranges_witness :
    0 ≤ (1/2 : ℚ) ∧ (1/2 : ℚ) ≤ 1 ∧
    (predict_risk ⟨some testModel, some testScaler, some testEncoders⟩
        emptyDisk testInput).1 =
      mkSuccess (roundTo2 ((1/2 : ℚ) * 100)) (categorizeRisk (1/2)).1
        (categorizeRisk (1/2)).2 ∧
    ((categorizeRisk (1/2 : ℚ)).1 = "Low Risk" ∨
      (categorizeRisk (1/2 : ℚ)).1 = "Medium Risk" ∨
      (categorizeRisk (1/2 : ℚ)).1 = "High Risk") ∧
    ((categorizeRisk (1/2 : ℚ)).2 = "green" ∨ (categorizeRisk (1/2 : ℚ)).2 = "orange" ∨
      (categorizeRisk (1/2 : ℚ)).2 = "red") ∧
    0 ≤ roundTo2 ((1/2 : ℚ) * 100) ∧ roundTo2 ((1/2 : ℚ) * 100) ≤ 100 :=
  C5_probability_and_category_ranges testModel testScaler testEncoders emptyDisk testInput
    [PyValue.int 1, PyValue.float 45, PyValue.int 0, PyValue.int 0, PyValue.int 1,
     PyValue.int 2, PyValue.int 1, PyValue.float (mkRat 1205 10),
     PyValue.float (mkRat 256 10), PyValue.int 2]
    [1, 45, 0, 0, 1, 2, 1, (1205 : ℚ)/10, (256 : ℚ)/10, 2] (1/2)
    (fun x => by constructor <;> norm_num [testModel])
    (by with_unfolding_all rfl)
    (by with_unfolding_all rfl)
    rfl

/-- C10: the prediction validator enforces no range constraints: any input
with the ten fields present and non-empty whose three numeric fields parse
as floats is accepted, including a negative age and a glucose level above
500 — inputs that `validate_patient_data` rejects with its [0,120] and
[0,500] range checks. -/
theorem C10_no_range_checks (data : PyDict)
    (hpres : ∀ f ∈ pred_required_fields, missingOrEmpty data f = false)
    (hnum : ∀ f ∈ pred_numeric_fields,
      (pyFloat ((data.get? f).getD PyValue.none)).isNone = false) :
    validate_prediction_input data = (true, Option.none) ∧
    validate_prediction_input negativeAgeRecord = (true, Option.none) ∧
    validate_patient_data negativeAgeRecord =
      (false, some "Age must be between 0 and 120.") ∧
    validate_prediction_input highGlucoseRecord = (true, Option.none) ∧
    validate_patient_data highGlucoseRecord =
      (false, some "Glucose level must be between 0 and 500.") := by
  refine ⟨?_, ?_, ?_, ?_, ?_⟩
  · unfold validate_prediction_input
    have h1 : pred_required_fields.find? (missingOrEmpty data) = Option.none :=
      List.find?_eq_none.mpr (fun f hf => by simp [hpres f hf])
    have h2 : pred_numeric_fields.find?
        (fun f => (pyFloat ((data.get? f).getD PyValue.none)).isNone) = Option.none :=
      List.find?_eq_none.mpr (fun f hf => by simp [hnum f hf])
    rw [h1, h2]
  all_goals with_unfolding_all decide

/-- Witness for C10 at the negative-age record: the prediction validator
accepts it while the patient validator rejects it. -/
theorem C10_no_range_checks_witness :
    validate_prediction_input negativeAgeRecord = (true, Option.none) ∧
    validate_prediction_input negativeAgeRecord = (true, Option.none) ∧
    validate_patient_data negativeAgeRecord =
      (false, some "Age must be between 0 and 120.") ∧
    validate_prediction_input highGlucoseRecord = (true, Option.none) ∧
    validate_patient_data highGlucoseRecord =
      (false, some "Glucose level must be between 0 and 500.") :=
  C10_no_range_checks negativeAgeRecord (by decide) (by decide)

end StrokeApp
